import Mathlib

/-!
Shallow embedding of `cover_generator.py` (game-cover card generator):
catalog parsing (`parse_gamelist`), asset resolution (`check_file_exists`
and the filtering loop of `list_games`), card compositing
(`generate_game_card`), and page assembly (`combine_cards_to_a4`),
together with theorems checking the specification's claims.

The filesystem is modelled as a predicate `isfile : String → Bool`
(Python's `os.path.isfile`), and the external ImageMagick invocations of
`generate_game_card` as two booleans saying whether each
`subprocess.run(..., check=True)` call succeeds.
-/

namespace CoverGen

/-! ### Python string / os.path primitives used by the script -/

/-- Python's `file_path.lstrip('./')`: remove ALL leading characters that
belong to the two-character set `\x7b '.', '/' \x7d` (not merely one leading
`"./"` marker). -/
def lstrip_dotslash (s : String) : String :=
  String.mk (s.toList.dropWhile (fun ch => ch = '.' || ch = '/'))

/-- Python's `os.path.join(base, p)` for POSIX paths as the script uses it:
an absolute second component replaces the base, otherwise the two parts are
joined with a single separator. -/
def os_path_join (base p : String) : String :=
  if p.toList.head? = some '/' then p
  else if base = "" then p
  else if base.toList.getLast? = some '/' then base ++ p
  else base ++ "/" ++ p

/-- Python's `os.path.basename(p)`: the component after the last slash. -/
def os_path_basename (p : String) : String :=
  String.mk ((p.toList.reverse.takeWhile (fun ch => ch ≠ '/')).reverse)

/-- Python's `os.path.dirname(p)`: everything before the last slash, or `""`
when the path has no slash. -/
def os_path_dirname (p : String) : String :=
  String.mk (((p.toList.reverse.dropWhile (fun ch => ch ≠ '/')).drop 1).reverse)

/-- Python's `pat in s` substring test. -/
def str_in (pat s : String) : Bool :=
  (List.range (s.toList.length + 1)).any
    (fun i => pat.toList.isPrefixOf (s.toList.drop i))

/-- Python's `s.lower()`. -/
def str_toLower (s : String) : String :=
  String.mk (s.toList.map Char.toLower)

/-- The f-string `"%02d" % n` used for page numbers. -/
def pad2 (n : Nat) : String :=
  if n < 10 then "0" ++ toString n else toString n

/-! ### CatalogReader: `parse_gamelist` -/

/-- A parsed XML element as exposed by `xml.etree.ElementTree`: tag,
attributes, text content and direct children. -/
inductive XmlElement where
  | mk (tag : String) (attrs : List (String × String)) (text : Option String)
       (children : List XmlElement)

def XmlElement.tag : XmlElement → String
  | .mk t _ _ _ => t

def XmlElement.attrs : XmlElement → List (String × String)
  | .mk _ a _ _ => a

def XmlElement.text : XmlElement → Option String
  | .mk _ _ tx _ => tx

def XmlElement.children : XmlElement → List XmlElement
  | .mk _ _ _ cs => cs

/-- `element.get(key, default)`: attribute lookup. -/
def XmlElement.getAttr (e : XmlElement) (key dflt : String) : String :=
  match e.attrs.find? (fun kv => kv.1 == key) with
  | some kv => kv.2
  | none => dflt

/-- `element.findtext(tag, default)`: text of the first direct child with the
given tag; the default when no such child exists; `""` when the child has no
text. -/
def XmlElement.findtext (e : XmlElement) (t dflt : String) : String :=
  match e.children.find? (fun c => c.tag == t) with
  | some c => c.text.getD ""
  | none => dflt

/-- `root.findall(tag)`: all direct children with the given tag, in document
order. -/
def XmlElement.findall (e : XmlElement) (t : String) : List XmlElement :=
  e.children.filter (fun c => c.tag == t)

/-- One game record, the dictionary built per `<game>` element. -/
structure GameInfo where
  id : String
  name : String
  path : String
  image : String
  thumbnail : String
  marquee : String
deriving DecidableEq, Repr

/-- The dictionary literal of `parse_gamelist`'s loop body. -/
def game_info_of (game : XmlElement) : GameInfo :=
  { id := game.getAttr "id" "N/A"
  , name := game.findtext "name" "Unknown"
  , path := game.findtext "path" "N/A"
  , image := game.findtext "image" ""
  , thumbnail := game.findtext "thumbnail" ""
  , marquee := game.findtext "marquee" "" }

/-- Outcome of `ET.parse(gamelist_path)`: a parsed root element, a
`ParseError`, or a `FileNotFoundError`. -/
inductive ParseOutcome where
  | ok (root : XmlElement)
  | parseError
  | fileNotFound

/-- `parse_gamelist`: one record per `<game>` child of the root, in document
order; the two exception handlers print a diagnostic and return `[]`. -/
def parse_gamelist : ParseOutcome → List GameInfo
  | .ok root => (root.findall "game").map game_info_of
  | .parseError => []
  | .fileNotFound => []

/-! ### AssetResolver: `check_file_exists` and the filter loop of `list_games` -/

/-- `check_file_exists(base_path, file_path)`: strip the leading path marker
with `lstrip('./')`, join with the base directory, and stat the result. -/
def check_file_exists (isfile : String → Bool) (base_path file_path : String) :
    Bool × String :=
  let clean_path := lstrip_dotslash file_path
  let full_path := os_path_join base_path clean_path
  (isfile full_path, full_path)

/-- A retained game together with the resolved artwork path the loop attaches
as `game['image_path']`. -/
structure CompleteGame where
  game : GameInfo
  image_path : String
deriving DecidableEq, Repr

/-- The artwork-selection part of the loop body (lines 95–109): the thumbnail
is taken when it is non-empty, its filename contains `"thumb"`
case-insensitively and the resolved file exists; otherwise the primary image
is taken when non-empty and existing; otherwise the iteration `continue`s. -/
def resolve_artwork (isfile : String → Bool) (game_system_path : String)
    (game : GameInfo) : Option String :=
  let thumb_path := game.thumbnail
  let thumb_check := check_file_exists isfile game_system_path thumb_path
  if thumb_path ≠ "" ∧
      str_in "thumb" (str_toLower (os_path_basename thumb_path)) = true ∧
      thumb_check.1 = true then
    some thumb_check.2
  else if game.image = "" then none
  else
    let image_check := check_file_exists isfile game_system_path game.image
    if image_check.1 = true then some image_check.2 else none

/-- One iteration of the filter loop of `list_games` (lines 94–115): `some`
with the resolved artwork when the game is appended to `complete_games`,
`none` when the iteration skips it; the marquee requirement is lines 110–113. -/
def resolve_game (isfile : String → Bool) (game_system_path : String)
    (game : GameInfo) : Option CompleteGame :=
  match resolve_artwork isfile game_system_path game with
  | none => none
  | some image_path =>
    if game.marquee ≠ "" ∧
        (check_file_exists isfile game_system_path game.marquee).1 = true then
      some { game := game, image_path := image_path }
    else none

/-- The whole filter loop: order-preserving filtering of the parsed games. -/
def complete_games (isfile : String → Bool) (game_system_path : String)
    (games : List GameInfo) : List CompleteGame :=
  games.filterMap (resolve_game isfile game_system_path)

/-! ### CardCompositor: `generate_game_card` -/

/-- Observable outcome of one `generate_game_card` call, parameterised by
whether each of the two external-tool invocations succeeds. `raised` records
whether an exception escapes the function; `reported` whether the
`except`-branch diagnostic is printed. -/
structure CardOutcome where
  resize_ran : Bool
  composite_ran : Bool
  card_written : Bool
  temp_created : Bool
  temp_removed : Bool
  reported : Bool
  raised : Bool
deriving DecidableEq, Repr

/-- `generate_game_card` (lines 181–211): resize into `output_path + ".tmp.png"`,
composite onto the template, then `os.remove` the temporary — the removal is
the last statement inside the `try`, so a failing composite jumps to the
`except` branch before it runs; the `except Exception` handler prints a
diagnostic and the function returns normally. -/
def generate_game_card (resize_ok composite_ok : Bool) : CardOutcome :=
  if resize_ok then
    if composite_ok then
      { resize_ran := true, composite_ran := true, card_written := true
      , temp_created := true, temp_removed := true
      , reported := false, raised := false }
    else
      { resize_ran := true, composite_ran := true, card_written := false
      , temp_created := true, temp_removed := false
      , reported := true, raised := false }
  else
    { resize_ran := true, composite_ran := false, card_written := false
    , temp_created := false, temp_removed := false
    , reported := true, raised := false }

/-- The card-generation loop of `list_games` (lines 126–136): one
`generate_game_card` call per retained game, in order; since
`generate_game_card` never raises, the loop reaches every element. -/
def generate_cards_batch (tool_outcomes : List (Bool × Bool)) :
    List CardOutcome :=
  tool_outcomes.map (fun oc => generate_game_card oc.1 oc.2)

/-! ### PageAssembler: `combine_cards_to_a4` -/

def a4_width : Nat := 2480
def a4_height : Nat := 3508
def card_w : Nat := 638
def card_h : Nat := 1012
def grid_cols : Nat := 3
def grid_rows : Nat := 3

/-- `margin_x = (a4_width - grid_cols * card_w) // (grid_cols + 1)`. -/
def margin_x : Nat := (a4_width - grid_cols * card_w) / (grid_cols + 1)

/-- `margin_y = (a4_height - grid_rows * card_h) // (grid_rows + 1)`. -/
def margin_y : Nat := (a4_height - grid_rows * card_h) / (grid_rows + 1)

/-- `math.ceil(len(card_paths) / 9)`. -/
def page_count (m : Nat) : Nat := (m + 8) / 9

/-- `x = margin_x + col * (card_w + margin_x)` for grid slot `idx`. -/
def cell_x (idx : Nat) : Nat := margin_x + (idx % grid_cols) * (card_w + margin_x)

/-- `y = margin_y + row * (card_h + margin_y)` for grid slot `idx`. -/
def cell_y (idx : Nat) : Nat := margin_y + (idx / grid_cols) * (card_h + margin_y)

/-- One `-geometry +x+y card -composite` step of the ImageMagick command. -/
structure Placement where
  card : String
  x : Nat
  y : Nat
deriving DecidableEq, Repr

/-- One assembled A4 page: its output filename and the composited cards. -/
structure Page where
  filename : String
  placements : List Placement
deriving DecidableEq, Repr

/-- `combine_cards_to_a4` (lines 148–179): `ceil(m/9)` pages; page `p` takes
`card_paths[p*9:(p+1)*9]` and composites card `idx` at column `idx % 3`,
row `idx // 3`. `os.path.dirname(card_paths[0])` is only evaluated inside
the loop, hence only when `card_paths` is non-empty (modelled with `headD`). -/
def combine_cards_to_a4 (card_paths : List String) (system_name : String) :
    List Page :=
  (List.range (page_count card_paths.length)).map (fun page =>
    let page_cards := (card_paths.drop (page * 9)).take 9
    let a4_path := system_name ++ "_" ++ pad2 (page + 1) ++ ".png"
    let a4_full_path := os_path_join (os_path_dirname (card_paths.headD ""))
      a4_path
    { filename := a4_full_path
    , placements := page_cards.enum.map (fun ic =>
        { card := ic.2, x := cell_x ic.1, y := cell_y ic.1 }) })

/-! ### Spec-side definition for comparison (claim C4) -/

/-- Modelled from the spec's words, for comparison with `lstrip_dotslash`:
"strips exactly one leading relative-path marker `./` (if present) and
otherwise leaves the path unchanged". -/
def spec_strip_one_marker (s : String) : String :=
  match s.toList with
  | '.' :: '/' :: rest => String.mk rest
  | _ => s

/-! ### Concrete fixtures used by witness theorems -/

/-- A small concrete filesystem: the asset files of one fully-equipped game
and the image and marquee (but no thumbnail) of a second. -/
def demo_isfile : String → Bool := fun s =>
  s == "roms/media/g1-thumb.png" || s == "roms/media/g1-marquee.png" ||
  s == "roms/media/g1.png" || s == "roms/media/g2.png" ||
  s == "roms/media/g2-marquee.png"

/-- A game with thumbnail, image and marquee all present on disk. -/
def demo_game : GameInfo :=
  { id := "1", name := "G1", path := "./g1.zip"
  , image := "./media/g1.png", thumbnail := "./media/g1-thumb.png"
  , marquee := "./media/g1-marquee.png" }

/-- A game with an empty thumbnail reference; image and marquee exist. -/
def demo_game2 : GameInfo :=
  { id := "2", name := "G2", path := "./g2.zip"
  , image := "./media/g2.png", thumbnail := ""
  , marquee := "./media/g2-marquee.png" }

/-! ### Helper lemmas -/

/-- Characterization of artwork resolution: some artwork is selected exactly
when the thumbnail rule or the image fallback applies. -/
theorem resolve_artwork_isSome_iff (isfile : String → Bool) (base : String)
    (g : GameInfo) :
    (resolve_artwork isfile base g).isSome = true ↔
      ((g.thumbnail ≠ "" ∧
          str_in "thumb" (str_toLower (os_path_basename g.thumbnail)) = true ∧
          (check_file_exists isfile base g.thumbnail).1 = true) ∨
        (g.image ≠ "" ∧ (check_file_exists isfile base g.image).1 = true)) := by
  unfold resolve_artwork
  by_cases h1 : (g.thumbnail ≠ "" ∧
      str_in "thumb" (str_toLower (os_path_basename g.thumbnail)) = true ∧
      (check_file_exists isfile base g.thumbnail).1 = true)
  · rw [if_pos h1]; simp [h1]
  · rw [if_neg h1]
    by_cases h2 : g.image = ""
    · rw [if_pos h2]; simp [h1, h2]
    · rw [if_neg h2]
      by_cases h3 : (check_file_exists isfile base g.image).1 = true
      · rw [if_pos h3]; simp [h1, h2, h3]
      · rw [if_neg h3]; simp [h1, h2, h3]

/-- A game is retained exactly when some artwork resolves and the marquee
requirement holds. -/
theorem resolve_game_isSome_iff (isfile : String → Bool) (base : String)
    (g : GameInfo) :
    (resolve_game isfile base g).isSome = true ↔
      ((resolve_artwork isfile base g).isSome = true ∧
        (g.marquee ≠ "" ∧ (check_file_exists isfile base g.marquee).1 = true)) := by
  unfold resolve_game
  cases h : resolve_artwork isfile base g with
  | none => simp [h]
  | some ip =>
    by_cases hm : (g.marquee ≠ "" ∧
        (check_file_exists isfile base g.marquee).1 = true) <;>
      simp [h, hm]

/-- An empty thumbnail reference can never satisfy the substring rule. -/
theorem str_in_thumb_empty :
    str_in "thumb" (str_toLower (os_path_basename "")) = false := by decide

/-! ### Claim theorems -/

/-- Claim C1, as stated, is false on the code: with canvas 2480x3508,
cols = rows = 3, card 638x1012 and integer-division margins, the horizontal
equation margin_x*(cols+1) + cols*card_w = canvas_width does NOT hold
(141*4 + 1914 = 2478 ≠ 2480); only the vertical one does. -/
theorem margin_equation_counterexample :
    ¬ (margin_x * (grid_cols + 1) + grid_cols * card_w = a4_width ∧
       margin_y * (grid_rows + 1) + grid_rows * card_h = a4_height) := by
  decide

/-- Claim C1, amended: the vertical margin equation holds exactly, while the
horizontal one reaches only canvas_width minus the integer-division remainder
(a4_width - grid_cols*card_w) % (grid_cols+1) = 2, i.e. 2478 of 2480. -/
theorem margin_equations_exact_residue :
    margin_x * (grid_cols + 1) + grid_cols * card_w
        = a4_width - (a4_width - grid_cols * card_w) % (grid_cols + 1) ∧
    a4_width - (a4_width - grid_cols * card_w) % (grid_cols + 1) = a4_width - 2 ∧
    margin_y * (grid_rows + 1) + grid_rows * card_h = a4_height := by
  decide

/-- Claim C2: a parsed game record is retained by the asset-resolution filter
iff its marquee reference is non-empty and resolves to an existing file, and
either its thumbnail filename contains "thumb" case-insensitively with the
resolved thumbnail existing, or its image reference is non-empty with the
resolved image existing. -/
theorem asset_resolver_retention_iff (isfile : String → Bool) (base : String)
    (g : GameInfo) :
    (resolve_game isfile base g).isSome = true ↔
      (g.marquee ≠ "" ∧ (check_file_exists isfile base g.marquee).1 = true) ∧
      ((str_in "thumb" (str_toLower (os_path_basename g.thumbnail)) = true ∧
          (check_file_exists isfile base g.thumbnail).1 = true) ∨
        (g.image ≠ "" ∧ (check_file_exists isfile base g.image).1 = true)) := by
  rw [resolve_game_isSome_iff, resolve_artwork_isSome_iff]
  have hempty : g.thumbnail = "" →
      str_in "thumb" (str_toLower (os_path_basename g.thumbnail)) = false := by
    intro h; rw [h]; exact str_in_thumb_empty
  constructor
  · rintro ⟨h1, h2⟩
    refine ⟨h2, ?_⟩
    rcases h1 with ⟨_, a, b⟩ | ⟨a, b⟩
    · exact Or.inl ⟨a, b⟩
    · exact Or.inr ⟨a, b⟩
  · rintro ⟨h2, h1⟩
    refine ⟨?_, h2⟩
    rcases h1 with ⟨a, b⟩ | ⟨a, b⟩
    · by_cases ht : g.thumbnail = ""
      · rw [hempty ht] at a; cases a
      · exact Or.inl ⟨ht, a, b⟩
    · exact Or.inr ⟨a, b⟩

/-- Witness for claim C2 at a concrete game and filesystem. -/
theorem asset_resolver_retention_iff_witness :
    (resolve_game demo_isfile "roms" demo_game).isSome = true :=
  (asset_resolver_retention_iff demo_isfile "roms" demo_game).mpr
    ⟨⟨by decide, by decide⟩, Or.inl ⟨by decide, by decide⟩⟩

/-- Claim C3, as stated, is false on the code: when the composite step fails,
`os.remove` (the last statement of the `try` block) is skipped, so the scaled
temporary file is created but never removed. -/
theorem temp_file_left_on_composite_failure :
    (generate_game_card true false).composite_ran = true ∧
    (generate_game_card true false).temp_created = true ∧
    (generate_game_card true false).temp_removed = false := by decide

/-- Claim C3, amended: the scaled temporary file is removed exactly when both
the resize and the composite step succeed; on a composite failure it is left
behind (on a resize failure it was never produced). -/
theorem temp_removed_iff_both_steps_succeed :
    ∀ resize_ok composite_ok : Bool,
      (generate_game_card resize_ok composite_ok).temp_removed
        = (resize_ok && composite_ok) := by decide

/-- Claim C4 concerns a code bug: the code comments say "Remove leading ./
from path if present", but `lstrip('./')` removes ALL leading '.' and '/'
characters. At input "../art/a.png" the code yields "roms/art/a.png" whereas
stripping one "./" marker (the documented and specified behavior) yields
"roms/../art/a.png". -/
theorem lstrip_normalization_at_failing_input :
    (check_file_exists (fun _ => false) "roms" "../art/a.png").2
        = "roms/art/a.png" ∧
    os_path_join "roms" (spec_strip_one_marker "../art/a.png")
        = "roms/../art/a.png" ∧
    ("roms/art/a.png" : String) ≠ "roms/../art/a.png" := by decide

/-- Claim C5: whenever the thumbnail rule (filename contains "thumb"
case-insensitively and resolved file exists) is satisfied, the thumbnail is
selected as the artwork; whenever it is not, resolution falls back to the
primary image, which is selected iff non-empty and existing, before the
record is excluded. -/
theorem thumbnail_priority_and_fallback (isfile : String → Bool)
    (base : String) (g : GameInfo) :
    (str_in "thumb" (str_toLower (os_path_basename g.thumbnail)) = true →
      (check_file_exists isfile base g.thumbnail).1 = true →
      resolve_artwork isfile base g =
        some (check_file_exists isfile base g.thumbnail).2) ∧
    (¬ (str_in "thumb" (str_toLower (os_path_basename g.thumbnail)) = true ∧
          (check_file_exists isfile base g.thumbnail).1 = true) →
      resolve_artwork isfile base g =
        (if g.image ≠ "" ∧ (check_file_exists isfile base g.image).1 = true
         then some (check_file_exists isfile base g.image).2 else none)) := by
  constructor
  · intro hs hx
    have hne : g.thumbnail ≠ "" := by
      intro h; rw [h] at hs; exact absurd hs (by decide)
    unfold resolve_artwork
    rw [if_pos ⟨hne, hs, hx⟩]
  · intro hnab
    unfold resolve_artwork
    rw [if_neg (fun h => hnab ⟨h.2.1, h.2.2⟩)]
    by_cases hi : g.image = ""
    · rw [if_pos hi, if_neg]
      rintro ⟨a, _⟩; exact a hi
    · rw [if_neg hi]
      by_cases hc : (check_file_exists isfile base g.image).1 = true
      · rw [if_pos hc, if_pos ⟨hi, hc⟩]
      · rw [if_neg hc, if_neg (fun h => hc h.2)]

/-- Witness for claim C5: a game whose thumbnail rule holds selects the
thumbnail; a game with an empty thumbnail falls back to its image. -/
theorem thumbnail_priority_and_fallback_witness :
    resolve_artwork demo_isfile "roms" demo_game
        = some (check_file_exists demo_isfile "roms" demo_game.thumbnail).2 ∧
    resolve_artwork demo_isfile "roms" demo_game2
        = (if demo_game2.image ≠ "" ∧
              (check_file_exists demo_isfile "roms" demo_game2.image).1 = true
           then some (check_file_exists demo_isfile "roms" demo_game2.image).2
           else none) :=
  ⟨(thumbnail_priority_and_fallback demo_isfile "roms" demo_game).1
      (by decide) (by decide),
   (thumbnail_priority_and_fallback demo_isfile "roms" demo_game2).2
      (by decide)⟩

/-- Claim C6: the number of pages produced for M card paths is exactly
ceil(M/9) — characterized by M ≤ 9*pages < M+9 — and the empty card list
produces no pages. -/
theorem page_count_is_ceil_div_nine (card_paths : List String)
    (system_name : String) :
    (card_paths.length ≤ 9 * (combine_cards_to_a4 card_paths system_name).length ∧
      9 * (combine_cards_to_a4 card_paths system_name).length
        < card_paths.length + 9) ∧
    (card_paths = [] → combine_cards_to_a4 card_paths system_name = []) := by
  have hlen : (combine_cards_to_a4 card_paths system_name).length
      = page_count card_paths.length := by
    unfold combine_cards_to_a4
    simp
  constructor
  · rw [hlen]; unfold page_count; omega
  · intro h; subst h; rfl

/-- Witness for claim C6 at the empty card list. -/
theorem page_count_is_ceil_div_nine_witness :
    combine_cards_to_a4 [] "snes" = [] :=
  (page_count_is_ceil_div_nine [] "snes").2 rfl

/-- Claim C7: cards fill pages in input order, 9 per page; inside a page the
card at position idx sits at column idx % 3, row idx / 3, at pixel offset
x = margin_x + col*(card_w + margin_x), y = margin_y + row*(card_h + margin_y);
a partial final page holds only its remaining cards, with no placeholder in
the unused cells. -/
theorem grid_assignment_row_major (card_paths : List String)
    (system_name : String) (page idx : Nat) :
    ((combine_cards_to_a4 card_paths system_name)[page]?.bind
        (fun pg => pg.placements[idx]?)) =
      (if idx < 9 then
        (card_paths[page * 9 + idx]?).map (fun c =>
          ({ card := c
           , x := margin_x + (idx % 3) * (card_w + margin_x)
           , y := margin_y + (idx / 3) * (card_h + margin_y) } : Placement))
      else none) := by
  unfold combine_cards_to_a4
  rw [List.getElem?_map]
  by_cases hp : page < page_count card_paths.length
  · rw [List.getElem?_range hp]
    simp only [Option.map_some', Option.some_bind]
    rw [List.getElem?_map, List.getElem?_enum, List.getElem?_take]
    by_cases hi : idx < 9
    · rw [if_pos hi, if_pos hi, List.getElem?_drop]
      cases card_paths[page * 9 + idx]? <;>
        simp [cell_x, cell_y, grid_cols, card_w, card_h]
    · rw [if_neg hi, if_neg hi]; simp
  · have h1 : (List.range (page_count card_paths.length))[page]? = none := by
      rw [List.getElem?_eq_none]
      simpa using Nat.le_of_not_lt hp
    rw [h1]
    have h2 : card_paths[page * 9 + idx]? = none := by
      rw [List.getElem?_eq_none]
      unfold page_count at hp
      omega
    rw [h2]
    simp

/-- Claim C8: for a successfully parsed catalog, the reader returns one record
per `<game>` child of the root, in document order, duplicates included —
the record at any index is the translation of the element at that index. -/
theorem catalog_reader_preserves_count_and_order (root : XmlElement)
    (i : Nat) :
    (parse_gamelist (.ok root)).length = (root.findall "game").length ∧
    (parse_gamelist (.ok root))[i]? =
      ((root.findall "game")[i]?).map game_info_of := by
  constructor
  · unfold parse_gamelist; simp
  · unfold parse_gamelist; rw [List.getElem?_map]

/-- Claim C9: `generate_game_card` never lets a tool failure escape (`raised`
is always false), prints the per-card diagnostic exactly on failure, and the
batch loop processes every retained card regardless of earlier failures. -/
theorem card_failures_do_not_abort_batch (tool_outcomes : List (Bool × Bool))
    (i : Nat) (resize_ok composite_ok : Bool) :
    (generate_game_card resize_ok composite_ok).raised = false ∧
    (generate_game_card resize_ok composite_ok).reported
        = !(resize_ok && composite_ok) ∧
    (generate_cards_batch tool_outcomes).length = tool_outcomes.length ∧
    (generate_cards_batch tool_outcomes)[i]? =
      (tool_outcomes[i]?).map (fun oc => generate_game_card oc.1 oc.2) := by
  refine ⟨?_, ?_, ?_, ?_⟩
  · cases resize_ok <;> cases composite_ok <;> rfl
  · cases resize_ok <;> cases composite_ok <;> rfl
  · unfold generate_cards_batch; simp
  · unfold generate_cards_batch; rw [List.getElem?_map]

/-- Claim C10: each of the nine grid cells lies entirely inside the 2480x3508
canvas, and the card rectangles of two distinct cells are disjoint. -/
theorem grid_cells_within_page_and_disjoint (p q : Fin 9) (hpq : p ≠ q) :
    ((cell_x p.val + card_w ≤ a4_width ∧ cell_y p.val + card_h ≤ a4_height) ∧
     (cell_x p.val + card_w ≤ cell_x q.val ∨
      cell_x q.val + card_w ≤ cell_x p.val ∨
      cell_y p.val + card_h ≤ cell_y q.val ∨
      cell_y q.val + card_h ≤ cell_y p.val)) := by
  revert hpq
  revert p q
  decide

/-- Witness for claim C10 at cells 0 and 1. -/
theorem grid_cells_within_page_and_disjoint_witness :
    ((cell_x 0 + card_w ≤ a4_width ∧ cell_y 0 + card_h ≤ a4_height) ∧
     (cell_x 0 + card_w ≤ cell_x 1 ∨
      cell_x 1 + card_w ≤ cell_x 0 ∨
      cell_y 0 + card_h ≤ cell_y 1 ∨
      cell_y 1 + card_h ≤ cell_y 0)) :=
  grid_cells_within_page_and_disjoint ⟨0, by decide⟩ ⟨1, by decide⟩ (by decide)

end CoverGen
